import Mathlib

/-!
Verification of the solacedownload file-sharing server (src/server.js) against
its natural-language specification.

Shallow embedding conventions:
- Timestamps are integer milliseconds since the Unix epoch (`Int`). In the
  source, `uploadDate` is stored as an ISO string and `expiresAt` as a `Date`
  (later an ISO string after a JSON round trip); every comparison the code
  performs (`new Date(x) < new Date()`) is a numeric comparison of the
  underlying millisecond values, which the `Int` model captures exactly.
- The metadata store `fileDatabase` is a `List FileInfo` (insertion order
  preserved, new records appended, `Array.prototype.find` is the first match
  of a linear scan).
- Persistence (`saveDatabase`, which rewrites database.json) is modelled by a
  `persistedDb` component of the server state that is overwritten with the
  current in-memory list whenever the code calls `saveDatabase()`.
- The uploads directory is modelled as the list of stored blob names present
  on disk (`disk`); `fs.existsSync` is list membership, `fs.unlinkSync` is
  removal.
- Request handlers are pure functions from (clock, state, request data) to
  (response, new state). Nondeterministic inputs of the source (the shortid
  tokens, the request host/protocol, the multer-written file metadata) are
  parameters.
-/

/-- One metadata record of the store, mirroring the object literal built in
the upload handler (src/server.js:69-78). -/
structure FileInfo where
  id : String
  filename : String
  storedName : String
  size : Nat
  mimeType : String
  uploadDate : Int
  downloadCount : Nat
  expiresAt : Int
  deriving Repr, DecidableEq

/-- The mutable state of the server process: the in-memory `fileDatabase`
array, the last contents written to database.json by `saveDatabase`
(src/server.js:53-55), and the set of blob names present in the uploads
directory. -/
structure ServerState where
  db : List FileInfo
  persistedDb : List FileInfo
  disk : List String
  deriving Repr, DecidableEq

/-- Effect of `saveDatabase()` (src/server.js:53-55): the whole in-memory
sequence is serialized over the backing document. -/
def saveDatabase (st : ServerState) : ServerState :=
  { st with persistedDb := st.db }

/-- Body of an HTTP response, distinguishing the response shapes the server
produces: the two static HTML error pages, plain text, JSON error objects
(`{ error: msg }`), the JSON upload result, the JSON delete result, and a
streamed blob. -/
inductive ResponseBody where
  | htmlNotFound
  | htmlExpired
  | plainText (s : String)
  | jsonError (error : String)
  | jsonUploadResult (file : FileInfo) (downloadUrl : String) (directDownloadUrl : String)
  | jsonDeleteSuccess
  | fileStream (storedName : String)
  deriving Repr, DecidableEq

/-- An HTTP response: status code, body, and the three headers the direct
download handler sets explicitly (src/server.js:383-385). -/
structure HttpResponse where
  status : Nat
  body : ResponseBody
  contentType : Option String := none
  contentDisposition : Option String := none
  contentLength : Option Nat := none
  deriving Repr, DecidableEq

/-- UTF-8 byte sequence of a Unicode code point, as byte values. -/
def utf8Bytes (c : Char) : List Nat :=
  let n := c.toNat
  if n < 128 then [n]
  else if n < 2048 then [192 + n / 64, 128 + n % 64]
  else if n < 65536 then [224 + n / 4096, 128 + (n / 64) % 64, 128 + n % 64]
  else [240 + n / 262144, 128 + (n / 4096) % 64, 128 + (n / 64) % 64, 128 + n % 64]

/-- Bytes left unescaped by JavaScript `encodeURIComponent`: ASCII
alphanumerics and `- _ . ! ~ * ' ( )` (byte values 45 95 46 33 126 42 39 40
41). -/
def isUnreservedByte (b : Nat) : Bool :=
  (65 ≤ b && b ≤ 90) || (97 ≤ b && b ≤ 122) || (48 ≤ b && b ≤ 57) ||
  b == 45 || b == 95 || b == 46 || b == 33 || b == 126 || b == 42 ||
  b == 39 || b == 40 || b == 41

/-- Uppercase hexadecimal digit for a value below 16. -/
def hexDigitChar (n : Nat) : Char :=
  if n < 10 then Char.ofNat (48 + n) else Char.ofNat (55 + n)

/-- Percent-encoding of one byte, or the byte itself when unreserved. -/
def encodeByte (b : Nat) : String :=
  if isUnreservedByte b then String.mk [Char.ofNat b]
  else String.mk [Char.ofNat 37, hexDigitChar (b / 16), hexDigitChar (b % 16)]

/-- JavaScript `encodeURIComponent`: percent-encode every UTF-8 byte of the
string except unreserved ones. -/
def encodeURIComponent (s : String) : String :=
  String.join (s.data.map (fun c => String.join ((utf8Bytes c).map encodeByte)))

/-- The seven-day retention window in milliseconds:
`7 * 24 * 60 * 60 * 1000` (src/server.js:77). -/
def sevenDaysMs : Int := 7 * 24 * 60 * 60 * 1000

/-- The file data multer attaches to the request before the upload handler
body runs: `req.file.originalname`, `req.file.size`, `req.file.mimetype`, and
the generated on-disk name `req.file.filename` (src/server.js:21-31). -/
structure UploadedFile where
  originalname : String
  size : Nat
  mimetype : String
  storedFilename : String
  deriving Repr, DecidableEq

/-- POST /api/upload handler (src/server.js:63-96). `now` is the clock value
(the code reads the clock twice, at lines 75 and 77, within the same handler
body; both reads are modelled as the single instant `now`). `newId` is the
`shortid.generate()` token of line 70, `protocol`/`host` come from the
request. `file` is `req.file`: `none` models a request with no file part
(status 400); when a file is present multer has already written the blob to
the uploads directory, so the disk gains its stored name. -/
def handleUpload (now : Int) (newId : String) (protocol : String) (host : String)
    (st : ServerState) (file : Option UploadedFile) : HttpResponse × ServerState :=
  match file with
  | none => ({ status := 400, body := .jsonError "No file uploaded" }, st)
  | some f =>
    let fileInfo : FileInfo :=
      { id := newId
        filename := f.originalname
        storedName := f.storedFilename
        size := f.size
        mimeType := f.mimetype
        uploadDate := now
        downloadCount := 0
        expiresAt := now + sevenDaysMs }
    let st1 : ServerState := { st with db := st.db ++ [fileInfo],
                                       disk := f.storedFilename :: st.disk }
    let st2 := saveDatabase st1
    let downloadUrl := protocol ++ "://" ++ host ++ "/d/" ++ fileInfo.id
    let directDownloadUrl := protocol ++ "://" ++ host ++ "/download/" ++ fileInfo.id
    ({ status := 200, body := .jsonUploadResult fileInfo downloadUrl directDownloadUrl }, st2)

/-- In-place increment of the download counter of the first record matching
the id, as `fileDatabase.find(...)` followed by `fileInfo.downloadCount++`
does (src/server.js:101,143): only the first match is mutated, every other
record and every other field is untouched. -/
def incrementFirst (i : String) : List FileInfo → List FileInfo
  | [] => []
  | f :: rest =>
    if f.id == i then { f with downloadCount := f.downloadCount + 1 } :: rest
    else f :: incrementFirst i rest

/-- GET /d/:id landing-page handler (src/server.js:99-365). Lookup is a
linear scan (line 101); a miss renders the static not-found page with 404;
an expired record (`new Date(expiresAt) < new Date()`, strict, line 123)
renders the static expired page with 410 and leaves the store untouched.
Otherwise the counter is incremented and the store saved (lines 143-144),
and then the handler evaluates the landing-page template literal
(lines 151-360). That template interpolates `formatBytes(fileInfo.size)`
server-side at line 293, but `formatBytes` is declared only inside the
client-side script tag text (line 349), not in the server scope, so the
evaluation throws a ReferenceError which the catch at line 361 turns into a
500 plain-text response. The increment and save have already happened at
that point. -/
def handleLanding (now : Int) (st : ServerState) (idParam : String) :
    HttpResponse × ServerState :=
  match st.db.find? (fun f => f.id == idParam) with
  | none => ({ status := 404, body := .htmlNotFound }, st)
  | some fileInfo =>
    if fileInfo.expiresAt < now then
      ({ status := 410, body := .htmlExpired }, st)
    else
      let st1 : ServerState := { st with db := incrementFirst idParam st.db }
      let st2 := saveDatabase st1
      ({ status := 500, body := .plainText "Internal server error" }, st2)

/-- GET /api/download/:id direct-download handler (src/server.js:368-395).
Lookup miss: 404 JSON. Record found but blob absent from the uploads
directory (`fs.existsSync`, line 378): 404 JSON with a distinct message.
Otherwise the blob is streamed with Content-Type = stored mimeType,
Content-Disposition attachment with the URL-encoded original filename, and
Content-Length = stored size (lines 383-389). No expiry check and no
counter increment occur on this path; the state is returned unchanged. -/
def handleDirectDownload (st : ServerState) (idParam : String) :
    HttpResponse × ServerState :=
  match st.db.find? (fun f => f.id == idParam) with
  | none => ({ status := 404, body := .jsonError "File not found" }, st)
  | some fileInfo =>
    if st.disk.contains fileInfo.storedName then
      ({ status := 200
         body := .fileStream fileInfo.storedName
         contentType := some fileInfo.mimeType
         contentDisposition :=
           some ("attachment; filename=\"" ++ encodeURIComponent fileInfo.filename ++ "\"")
         contentLength := some fileInfo.size }, st)
    else
      ({ status := 404, body := .jsonError "File not found on server" }, st)

/-- Removal of the first record matching the id, returning it together with
the remaining list, as `findIndex` followed by `splice(index, 1)` does
(src/server.js:417,432); `none` when no record matches. -/
def deleteFirst (i : String) : List FileInfo → Option (FileInfo × List FileInfo)
  | [] => none
  | f :: rest =>
    if f.id == i then some (f, rest)
    else match deleteFirst i rest with
         | none => none
         | some (g, rest2) => some (g, f :: rest2)

/-- DELETE /api/files/:id handler (src/server.js:415-440). Lookup miss: 404
JSON, state unchanged. Otherwise the blob is unlinked if present on disk (a
no-op when already absent, lines 427-429), the record is spliced out of the
sequence, the store is saved, and a success JSON is returned. -/
def handleDelete (st : ServerState) (idParam : String) :
    HttpResponse × ServerState :=
  match deleteFirst idParam st.db with
  | none => ({ status := 404, body := .jsonError "File not found" }, st)
  | some (fileInfo, db2) =>
    let st1 : ServerState := { st with db := db2,
                                       disk := st.disk.filter (fun n => n ≠ fileInfo.storedName) }
    let st2 := saveDatabase st1
    ({ status := 200, body := .jsonDeleteSuccess }, st2)

/-- Outcome of reading and parsing database.json at process start
(src/server.js:46-51): the file may be absent (readFileSync throws), present
but malformed (JSON.parse throws), or parse to a record sequence. -/
inductive LoadOutcome where
  | absent
  | malformed (raw : String)
  | parsed (records : List FileInfo)

/-- Initialization of `fileDatabase` at process start (src/server.js:45-51):
the try/catch turns both a missing and a malformed backing document into the
empty sequence; a successful parse is taken wholesale. -/
def loadDatabase : LoadOutcome → List FileInfo
  | .absent => []
  | .malformed _ => []
  | .parsed records => records

/-! Helper lemmas about the linear-scan primitives. -/

/-- A linear scan over a list whose prefix has no matching id finds the first
record carrying the id. -/
theorem find_first_match (i : String) (pre suf : List FileInfo) (f : FileInfo)
    (hpre : ∀ g ∈ pre, g.id ≠ i) (hf : f.id = i) :
    (pre ++ f :: suf).find? (fun g => g.id == i) = some f := by
  induction pre with
  | nil => simp [List.find?, hf]
  | cons g pre ih =>
    have hg : (g.id == i) = false := by
      simp [hpre g (List.mem_cons_self g pre)]
    simp only [List.cons_append, List.find?, hg]
    exact ih fun x hx => hpre x (List.mem_cons_of_mem _ hx)

/-- A linear scan over a list with no matching id finds nothing. -/
theorem find_no_match (i : String) (l : List FileInfo)
    (h : ∀ g ∈ l, g.id ≠ i) :
    l.find? (fun g => g.id == i) = none := by
  rw [List.find?_eq_none]
  intro x hx
  simpa using h x hx

/-- Incrementing the first matching record leaves the non-matching prefix and
everything after the first match untouched, and changes only the counter of
the matched record. -/
theorem incrementFirst_append (i : String) (pre suf : List FileInfo) (f : FileInfo)
    (hpre : ∀ g ∈ pre, g.id ≠ i) (hf : f.id = i) :
    incrementFirst i (pre ++ f :: suf) =
      pre ++ { f with downloadCount := f.downloadCount + 1 } :: suf := by
  induction pre with
  | nil => simp [incrementFirst, hf]
  | cons g pre ih =>
    have hg : (g.id == i) = false := by
      simp [hpre g (List.mem_cons_self g pre)]
    simp only [List.cons_append, incrementFirst, hg, Bool.false_eq_true, if_false,
      List.cons.injEq, true_and]
    exact ih fun x hx => hpre x (List.mem_cons_of_mem _ hx)

/-- Splicing out the first matching record returns that record and the
concatenation of the untouched prefix and suffix. -/
theorem deleteFirst_append (i : String) (pre suf : List FileInfo) (f : FileInfo)
    (hpre : ∀ g ∈ pre, g.id ≠ i) (hf : f.id = i) :
    deleteFirst i (pre ++ f :: suf) = some (f, pre ++ suf) := by
  induction pre with
  | nil => simp [deleteFirst, hf]
  | cons g pre ih =>
    have hg : (g.id == i) = false := by
      simp [hpre g (List.mem_cons_self g pre)]
    simp [deleteFirst, hg, ih fun x hx => hpre x (List.mem_cons_of_mem _ hx)]

/-- Splicing out of a list with no matching record is a miss. -/
theorem deleteFirst_no_match (i : String) (l : List FileInfo)
    (h : ∀ g ∈ l, g.id ≠ i) :
    deleteFirst i l = none := by
  induction l with
  | nil => rfl
  | cons g rest ih =>
    have hg : (g.id == i) = false := by
      simp [h g (List.mem_cons_self g rest)]
    simp [deleteFirst, hg, ih fun x hx => h x (List.mem_cons_of_mem _ hx)]

/-- Evaluation of the landing-page handler on a present, unexpired record:
the first matching record's counter is incremented, the store is saved, and
the attempted page render dies in the ReferenceError caught as a 500. -/
theorem handleLanding_found_not_expired (now : Int) (st : ServerState) (i : String)
    (pre suf : List FileInfo) (f : FileInfo)
    (hdb : st.db = pre ++ f :: suf)
    (hpre : ∀ g ∈ pre, g.id ≠ i) (hf : f.id = i) (hexp : ¬ f.expiresAt < now) :
    handleLanding now st i =
      ({ status := 500, body := .plainText "Internal server error" },
       ⟨pre ++ { f with downloadCount := f.downloadCount + 1 } :: suf,
        pre ++ { f with downloadCount := f.downloadCount + 1 } :: suf, st.disk⟩) := by
  unfold handleLanding
  rw [hdb, find_first_match i pre suf f hpre hf]
  simp [hexp, saveDatabase, incrementFirst_append i pre suf f hpre hf]

/-! Concrete sample records used by the closed witness theorems. -/

/-- A fresh unexpired sample record. -/
def sampleFile : FileInfo :=
  { id := "abc1", filename := "a.txt", storedName := "xyz9.txt", size := 10,
    mimeType := "text/plain", uploadDate := 500, downloadCount := 0,
    expiresAt := 605000000 }

/-- A sample record whose expiry lies in the past relative to the clock
values used in the witnesses. -/
def expiredFile : FileInfo :=
  { id := "old7", filename := "b bin.dat", storedName := "q2.dat", size := 3,
    mimeType := "application/octet-stream", uploadDate := 0, downloadCount := 4,
    expiresAt := 604800000 }

/-- C3: a GET /d/:id visit for an existing record that passes the expiry
check increments that record's downloadCount by exactly 1, leaves every
other field of the record and every other record unchanged, and persists
the store; a second such visit yields downloadCount + 2 (so 2 when the
record started at 0). -/
theorem c3_landing_visit_increments_exactly_once (now : Int)
    (pre suf persisted : List FileInfo) (f : FileInfo) (disk : List String)
    (i : String)
    (hpre : ∀ g ∈ pre, g.id ≠ i) (hf : f.id = i) (hexp : ¬ f.expiresAt < now) :
    (handleLanding now ⟨pre ++ f :: suf, persisted, disk⟩ i).2 =
      ⟨pre ++ { f with downloadCount := f.downloadCount + 1 } :: suf,
       pre ++ { f with downloadCount := f.downloadCount + 1 } :: suf, disk⟩ ∧
    (handleLanding now
        (handleLanding now ⟨pre ++ f :: suf, persisted, disk⟩ i).2 i).2 =
      ⟨pre ++ { f with downloadCount := f.downloadCount + 2 } :: suf,
       pre ++ { f with downloadCount := f.downloadCount + 2 } :: suf, disk⟩ := by
  have h1 := handleLanding_found_not_expired now ⟨pre ++ f :: suf, persisted, disk⟩ i
    pre suf f rfl hpre hf hexp
  have e1 : (handleLanding now ⟨pre ++ f :: suf, persisted, disk⟩ i).2 =
      ⟨pre ++ { f with downloadCount := f.downloadCount + 1 } :: suf,
       pre ++ { f with downloadCount := f.downloadCount + 1 } :: suf, disk⟩ := by
    rw [h1]
  refine ⟨e1, ?_⟩
  rw [e1]
  have h2 := handleLanding_found_not_expired now
    ⟨pre ++ { f with downloadCount := f.downloadCount + 1 } :: suf,
     pre ++ { f with downloadCount := f.downloadCount + 1 } :: suf, disk⟩ i
    pre suf { f with downloadCount := f.downloadCount + 1 } rfl hpre hf hexp
  rw [h2]

/-- C3 witness: two visits to the sample record take its counter from 0 to 1
and then to 2, persisting each time. -/
theorem c3_witness :
    (handleLanding 1000 ⟨[sampleFile], [], ["xyz9.txt"]⟩ "abc1").2 =
      ⟨[{ sampleFile with downloadCount := 1 }],
       [{ sampleFile with downloadCount := 1 }], ["xyz9.txt"]⟩ ∧
    (handleLanding 1000
        (handleLanding 1000 ⟨[sampleFile], [], ["xyz9.txt"]⟩ "abc1").2 "abc1").2 =
      ⟨[{ sampleFile with downloadCount := 2 }],
       [{ sampleFile with downloadCount := 2 }], ["xyz9.txt"]⟩ :=
  c3_landing_visit_increments_exactly_once 1000 [] [] [] sampleFile ["xyz9.txt"]
    "abc1" (by simp) rfl (by decide)

/-- C4: a GET /d/:id for a record whose expiresAt is strictly in the past
answers 410 and changes nothing: no counter increment, no save. -/
theorem c4_expired_landing_410 (now : Int) (st : ServerState) (i : String)
    (f : FileInfo)
    (hfind : st.db.find? (fun g => g.id == i) = some f)
    (hexp : f.expiresAt < now) :
    handleLanding now st i = ({ status := 410, body := .htmlExpired }, st) := by
  unfold handleLanding
  rw [hfind]
  simp [hexp]

/-- C4 witness: the expired sample record draws a 410 and an unchanged
state. -/
theorem c4_witness :
    handleLanding 604800001 ⟨[expiredFile], [expiredFile], ["q2.dat"]⟩ "old7" =
      ({ status := 410, body := .htmlExpired },
       ⟨[expiredFile], [expiredFile], ["q2.dat"]⟩) :=
  c4_expired_landing_410 604800001 ⟨[expiredFile], [expiredFile], ["q2.dat"]⟩
    "old7" expiredFile (by decide) (by decide)

/-- C5: a GET /api/download/:id for a record whose blob is on disk streams
the blob with Content-Type = stored mimeType, Content-Disposition attachment
carrying the URL-encoded original filename, and Content-Length = stored
size; nothing depends on expiresAt (no expiry check) and the state is
unchanged (no counter increment). -/
theorem c5_direct_download_streams (st : ServerState) (i : String) (f : FileInfo)
    (hfind : st.db.find? (fun g => g.id == i) = some f)
    (hblob : st.disk.contains f.storedName = true) :
    handleDirectDownload st i =
      ({ status := 200, body := .fileStream f.storedName,
         contentType := some f.mimeType,
         contentDisposition :=
           some ("attachment; filename=\"" ++ encodeURIComponent f.filename ++ "\""),
         contentLength := some f.size }, st) := by
  unfold handleDirectDownload
  rw [hfind]
  have hmem : f.storedName ∈ st.disk := by simpa using hblob
  simp [hmem]

/-- C5 witness: the direct download of the expired sample record (expiry is
irrelevant on this path) streams with the stored mime type, the percent-
encoded filename and the stored size, leaving the state as it was. -/
theorem c5_witness :
    handleDirectDownload ⟨[expiredFile], [expiredFile], ["q2.dat"]⟩ "old7" =
      ({ status := 200, body := .fileStream "q2.dat",
         contentType := some "application/octet-stream",
         contentDisposition := some "attachment; filename=\"b%20bin.dat\"",
         contentLength := some 3 },
       ⟨[expiredFile], [expiredFile], ["q2.dat"]⟩) := by
  have h := c5_direct_download_streams ⟨[expiredFile], [expiredFile], ["q2.dat"]⟩
    "old7" expiredFile (by decide) (by decide)
  rw [h]
  decide

/-- C6: for an id with no matching record, GET /d/:id answers 404 with the
HTML not-found page and GET /api/download/:id answers 404 with a JSON error,
both leaving the state unchanged; and for a record whose blob is missing
from disk, GET /api/download/:id also answers 404 with a (distinct) JSON
error. -/
theorem c6_unknown_id_and_missing_blob_404 (now : Int) (st : ServerState)
    (i : String) :
    ((∀ g ∈ st.db, g.id ≠ i) →
      handleLanding now st i = ({ status := 404, body := .htmlNotFound }, st) ∧
      handleDirectDownload st i =
        ({ status := 404, body := .jsonError "File not found" }, st)) ∧
    (∀ f, st.db.find? (fun g => g.id == i) = some f →
      st.disk.contains f.storedName = false →
      handleDirectDownload st i =
        ({ status := 404, body := .jsonError "File not found on server" }, st)) := by
  constructor
  · intro h
    have hfind := find_no_match i st.db h
    constructor
    · unfold handleLanding
      rw [hfind]
    · unfold handleDirectDownload
      rw [hfind]
  · intro f hfind hblob
    unfold handleDirectDownload
    rw [hfind]
    have hmem : f.storedName ∉ st.disk := by simpa using hblob
    simp [hmem]

/-- C6 witness: an unknown id on both endpoints against a store holding only
the sample record, and the direct download of the sample record when its
blob is absent from disk. -/
theorem c6_witness :
    handleLanding 1000 ⟨[sampleFile], [sampleFile], []⟩ "zzzz" =
      ({ status := 404, body := .htmlNotFound },
       ⟨[sampleFile], [sampleFile], []⟩) ∧
    handleDirectDownload ⟨[sampleFile], [sampleFile], []⟩ "zzzz" =
      ({ status := 404, body := .jsonError "File not found" },
       ⟨[sampleFile], [sampleFile], []⟩) ∧
    handleDirectDownload ⟨[sampleFile], [sampleFile], []⟩ "abc1" =
      ({ status := 404, body := .jsonError "File not found on server" },
       ⟨[sampleFile], [sampleFile], []⟩) := by
  have h1 := (c6_unknown_id_and_missing_blob_404 1000
    ⟨[sampleFile], [sampleFile], []⟩ "zzzz").1 (by decide)
  have h2 := (c6_unknown_id_and_missing_blob_404 1000
    ⟨[sampleFile], [sampleFile], []⟩ "abc1").2 sampleFile (by decide) (by decide)
  exact ⟨h1.1, h1.2, h2⟩

/-- C7: a successful upload appends exactly one new record whose filename,
size and mimeType are the uploaded file's, whose downloadCount is 0, whose
uploadDate is the current clock and whose expiresAt is uploadDate plus seven
days in milliseconds; the store is serialized to disk right after the
insert. -/
theorem c7_upload_appends_fresh_record (now : Int) (newId protocol host : String)
    (st : ServerState) (uf : UploadedFile) :
    (handleUpload now newId protocol host st (some uf)).2.db =
      st.db ++ [{ id := newId, filename := uf.originalname,
                  storedName := uf.storedFilename, size := uf.size,
                  mimeType := uf.mimetype, uploadDate := now,
                  downloadCount := 0, expiresAt := now + sevenDaysMs }] ∧
    (handleUpload now newId protocol host st (some uf)).2.persistedDb =
      (handleUpload now newId protocol host st (some uf)).2.db ∧
    now + sevenDaysMs = now + 7 * 24 * 60 * 60 * 1000 :=
  ⟨rfl, rfl, rfl⟩

/-- C8: at process start the store initializes to the empty sequence when
the backing document is absent or malformed, and to the parsed record
sequence otherwise. -/
theorem c8_load_silent_fallback (raw : String) (records : List FileInfo) :
    loadDatabase .absent = [] ∧ loadDatabase (.malformed raw) = [] ∧
    loadDatabase (.parsed records) = records :=
  ⟨rfl, rfl, rfl⟩

/-- C9: DELETE /api/files/:id answers 404 with a JSON error and an unchanged
state when no record matches; when a record matches (uniquely, per the store
invariant) the blob is removed from disk, the record is removed from the
sequence, the store is persisted, a success response is returned, and a
subsequent direct download of that id answers 404. -/
theorem c9_delete_record_and_blob (st : ServerState) (i : String) :
    ((∀ g ∈ st.db, g.id ≠ i) →
      handleDelete st i =
        ({ status := 404, body := .jsonError "File not found" }, st)) ∧
    (∀ pre f suf, st.db = pre ++ f :: suf →
      (∀ g ∈ pre, g.id ≠ i) → f.id = i → (∀ g ∈ suf, g.id ≠ i) →
      handleDelete st i =
        ({ status := 200, body := .jsonDeleteSuccess },
         ⟨pre ++ suf, pre ++ suf,
          st.disk.filter (fun n => n ≠ f.storedName)⟩) ∧
      f.storedName ∉ st.disk.filter (fun n => n ≠ f.storedName) ∧
      (handleDirectDownload
          ⟨pre ++ suf, pre ++ suf,
           st.disk.filter (fun n => n ≠ f.storedName)⟩ i).1 =
        { status := 404, body := .jsonError "File not found" }) := by
  constructor
  · intro h
    unfold handleDelete
    rw [deleteFirst_no_match i st.db h]
  · intro pre f suf hdb hpre hf hsuf
    refine ⟨?_, ?_, ?_⟩
    · unfold handleDelete
      rw [hdb, deleteFirst_append i pre suf f hpre hf]
      simp [saveDatabase, hdb]
    · intro hmem
      have := (List.mem_filter.mp hmem).2
      simp at this
    · have hnone : (pre ++ suf).find? (fun g => g.id == i) = none := by
        refine find_no_match i (pre ++ suf) ?_
        intro g hg
        rcases List.mem_append.mp hg with h | h
        · exact hpre g h
        · exact hsuf g h
      unfold handleDirectDownload
      rw [hnone]

/-- C9 witness: deleting an unknown id leaves the two-record store alone;
deleting the sample record removes its blob and its record, persists, and a
direct download of the deleted id then answers 404. -/
theorem c9_witness :
    handleDelete ⟨[sampleFile], [sampleFile], ["xyz9.txt", "zz"]⟩ "nope" =
      ({ status := 404, body := .jsonError "File not found" },
       ⟨[sampleFile], [sampleFile], ["xyz9.txt", "zz"]⟩) ∧
    handleDelete ⟨[sampleFile], [sampleFile], ["xyz9.txt", "zz"]⟩ "abc1" =
      ({ status := 200, body := .jsonDeleteSuccess }, ⟨[], [], ["zz"]⟩) ∧
    (handleDirectDownload ⟨[], [], ["zz"]⟩ "abc1").1 =
      { status := 404, body := .jsonError "File not found" } := by
  have h1 := (c9_delete_record_and_blob
    ⟨[sampleFile], [sampleFile], ["xyz9.txt", "zz"]⟩ "nope").1 (by decide)
  have h2 := (c9_delete_record_and_blob
    ⟨[sampleFile], [sampleFile], ["xyz9.txt", "zz"]⟩ "abc1").2 [] sampleFile []
    rfl (by simp) rfl (by simp)
  refine ⟨h1, ?_, ?_⟩
  · have := h2.1
    simpa using this
  · have := h2.2.2
    simpa using this

/-- C10: the landing-page handler never consults the disk: for an existing,
non-expired record whose blob is absent from the uploads directory, a visit
is not treated as not-found — the counter is still incremented and the store
persisted. -/
theorem c10_landing_ignores_missing_blob (now : Int)
    (pre suf persisted : List FileInfo) (f : FileInfo) (disk : List String)
    (i : String)
    (hpre : ∀ g ∈ pre, g.id ≠ i) (hf : f.id = i) (hexp : ¬ f.expiresAt < now)
    (_hblob : disk.contains f.storedName = false) :
    (handleLanding now ⟨pre ++ f :: suf, persisted, disk⟩ i).1.status ≠ 404 ∧
    (handleLanding now ⟨pre ++ f :: suf, persisted, disk⟩ i).2 =
      ⟨pre ++ { f with downloadCount := f.downloadCount + 1 } :: suf,
       pre ++ { f with downloadCount := f.downloadCount + 1 } :: suf, disk⟩ := by
  have h := handleLanding_found_not_expired now
    ⟨pre ++ f :: suf, persisted, disk⟩ i pre suf f rfl hpre hf hexp
  refine ⟨?_, ?_⟩
  · rw [h]
    simp
  · rw [h]

/-- C10 witness: a visit to the sample record with an empty uploads
directory still increments and persists, and is not a 404. -/
theorem c10_witness :
    (handleLanding 1000 ⟨[sampleFile], [sampleFile], []⟩ "abc1").1.status ≠ 404 ∧
    (handleLanding 1000 ⟨[sampleFile], [sampleFile], []⟩ "abc1").2 =
      ⟨[{ sampleFile with downloadCount := 1 }],
       [{ sampleFile with downloadCount := 1 }], []⟩ :=
  c10_landing_ignores_missing_blob 1000 [] [] [sampleFile] sampleFile [] "abc1"
    (by simp) rfl (by decide) (by decide)

/-- C1: the upload response's downloadUrl ends in /d/{id} as claimed, but
its directDownloadUrl is built from the path /download/{id}
(src/server.js:90), not /api/download/{id}: evaluated at a concrete upload,
the second URL does not end in /api/download/{id}, and no /download/:id
route exists in the source. -/
theorem c1_directDownloadUrl_lacks_api_path :
    (handleUpload 1000 "abc1" "http" "localhost:3000" ⟨[], [], []⟩
        (some ⟨"a.txt", 10, "text/plain", "xyz9.txt"⟩)).1.body =
      .jsonUploadResult
        { id := "abc1", filename := "a.txt", storedName := "xyz9.txt",
          size := 10, mimeType := "text/plain", uploadDate := 1000,
          downloadCount := 0, expiresAt := 1000 + sevenDaysMs }
        "http://localhost:3000/d/abc1" "http://localhost:3000/download/abc1" ∧
    List.isSuffixOf "/d/abc1".data "http://localhost:3000/d/abc1".data = true ∧
    List.isSuffixOf "/api/download/abc1".data
      "http://localhost:3000/download/abc1".data = false := by
  refine ⟨rfl, by decide, by decide⟩

/-- C2: a GET /d/:id for an existing, unexpired record does not produce a
200 HTML page: the template evaluation throws (formatBytes is only declared
in the client-side script text) and the caught error yields a 500 plain-text
response, after the counter increment and save already took effect. -/
theorem c2_landing_render_fails_500 :
    handleLanding 1000 ⟨[sampleFile], [sampleFile], ["xyz9.txt"]⟩ "abc1" =
      ({ status := 500, body := .plainText "Internal server error" },
       ⟨[{ sampleFile with downloadCount := 1 }],
        [{ sampleFile with downloadCount := 1 }], ["xyz9.txt"]⟩) := by
  decide
